import Mathlib

/-!
Shallow embedding of the `xablogger` Go package: a structured audit-logging
facility that groups per-segment log entries under named transactions and
emits one consolidated audit entry per transaction.

The Go code mutates a process-wide `coordinatorInstance`; here every operation
is a pure function from the coordinator state to a result record carrying the
returned `error` value (`none` models Go's `nil`), the updated state, and the
list of log entries emitted to the logrus backend during the call.  Go maps
are modelled as association lists observed only through `GoMap.get`,
`GoMap.set` (overwrite) and `GoMap.erase` (delete), matching Go map semantics.
Timestamps are integers in milliseconds, so `time.Since(start)` at instant
`now` is `now - start` and the `/ time.Millisecond` unit conversion is the
identity.
-/

/-- A dynamic field value as stored in a logrus `map[string]interface{}`.
`vMap` embeds a whole field set, as `AppendSegment` does for `segment.data`. -/
inductive Value where
  | vStr (s : String)
  | vBool (b : Bool)
  | vInt (n : Int)
  | vStrList (l : List String)
  | vMap (m : List (String × Value))
  deriving Repr

/-- A Go `map[string]interface{}` / logrus field set, as an association list. -/
abbrev Fields := List (String × Value)

namespace GoMap

/-- Go map read `m[k]` (comma-ok form: `none` when the key is absent). -/
def get (m : List (String × α)) (k : String) : Option α :=
  match m with
  | [] => none
  | (k', v) :: rest => if k' = k then some v else get rest k

/-- Go map write `m[k] = v`: overwrite the binding for `k`, insert if absent. -/
def set (m : List (String × α)) (k : String) (v : α) : List (String × α) :=
  match m with
  | [] => [(k, v)]
  | (k', v') :: rest => if k' = k then (k', v) :: rest else (k', v') :: set rest k v

/-- Go map `delete(m, k)`. -/
def erase (m : List (String × α)) (k : String) : List (String × α) :=
  m.filter (fun kv => !(kv.1 == k))

/-- logrus `WithFields`: merge `upd` into `base`, `upd` winning on collisions
(logrus copies the entry data then ranges over the new fields). -/
def merge (base upd : List (String × α)) : List (String × α) :=
  upd.foldl (fun acc kv => set acc kv.1 kv.2) base

end GoMap

/-- logrus severity of an emitted entry: the code only calls `.Info()` and
`.Error()`. -/
inductive Level where
  | info
  | error
  deriving Repr, DecidableEq

/-- One entry handed to the logging backend: severity plus the entry's bound
field data at emission time. -/
structure LogEntry where
  level : Level
  data : Fields
  deriving Repr

/-- The read-only view of a `Segment` interface value that the coordinator
uses: `Type()`, `Fields()` and `HasFailed()` as observed at append time. -/
structure Segment where
  type : String
  fields : Fields
  hasFailed : Bool
  deriving Repr

/-- `transaction`: id, the pre-bound logrus entry's field data (`logger.Data`),
and the mutex-guarded segment slice (the mutex is modelled by the appends
being serialised). -/
structure Transaction where
  id : String
  loggerData : Fields
  segments : List Segment
  deriving Repr

/-- `coordinator`: default fields and the transaction registry.  The logrus
`mainLogger` handle itself (formatter, hooks) is opaque to every claim, so it
is not carried in the state; options may still act on the rest of the state. -/
structure Coordinator where
  defaultFields : Fields
  transactionMap : List (String × Transaction)
  deriving Repr

/-- Result of one coordinator operation: the Go `error` return (`none` = nil),
the coordinator state after the call, and the entries emitted during it. -/
structure OpResult where
  err : Option String
  state : Coordinator
  logs : List LogEntry
  deriving Repr

/-- `Init`: reset all coordinator state, apply the functional options in
order, then set the built-in `audit=true` default field (after the options,
so it wins over any option-supplied binding). -/
def Init (opts : List (Coordinator → Coordinator)) : Coordinator :=
  let c : Coordinator := { defaultFields := [], transactionMap := [] }
  let c := opts.foldl (fun acc opt => opt acc) c
  { c with defaultFields := GoMap.set c.defaultFields "audit" (.vBool true) }

/-- The `DefaultFields` functional option: merge the given fields into the
coordinator's default field set. -/
def DefaultFields (fields : Fields) : Coordinator → Coordinator :=
  fun x => { x with defaultFields := GoMap.merge x.defaultFields fields }

/-- `NewTransaction`: fail if the id is already registered, otherwise register
a fresh transaction with an empty segment slice and a logger entry pre-bound
to the default fields (`mainLogger.WithFields(defaultFields)`). -/
def NewTransaction (c : Coordinator) (transactionID : String) : OpResult :=
  match GoMap.get c.transactionMap transactionID with
  | some _ =>
      { err := some ("TransactionID " ++ transactionID ++ " already exists inside transactions map"),
        state := c, logs := [] }
  | none =>
      let tx : Transaction :=
        { id := transactionID, segments := [],
          loggerData := GoMap.merge [] c.defaultFields }
      { err := none,
        state := { c with transactionMap := GoMap.set c.transactionMap transactionID tx },
        logs := [] }

/-- The stand-alone entry `AppendSegment` builds for a segment:
`mainLogger.WithFields({"segment.type": .., "segment.data": .., "audit": false})
.WithFields(defaultFields)` — note the default fields are merged last. -/
def mkSegmentEntry (c : Coordinator) (segment : Segment) : LogEntry :=
  { level := if segment.hasFailed then .error else .info,
    data := GoMap.merge
      (GoMap.merge []
        [("segment.type", .vStr segment.type),
         ("segment.data", .vMap segment.fields),
         ("audit", .vBool false)])
      c.defaultFields }

/-- `AppendSegment`: unconditionally emit the stand-alone segment entry
(severity error iff `segment.HasFailed()`), then look the transaction up,
returning a not-found error if absent, else append the segment to its slice
under the transaction's mutex. -/
def AppendSegment (c : Coordinator) (transactionID : String) (segment : Segment) : OpResult :=
  let entry := mkSegmentEntry c segment
  match GoMap.get c.transactionMap transactionID with
  | none =>
      { err := some ("Transaction " ++ transactionID ++ " not found"),
        state := c, logs := [entry] }
  | some tx =>
      let tx' := { tx with segments := tx.segments ++ [segment] }
      { err := none,
        state := { c with transactionMap := GoMap.set c.transactionMap transactionID tx' },
        logs := [entry] }

/-- `FlushTransaction`: fail if the id is absent; otherwise emit the
transaction's pre-bound entry at error severity iff its `Data` carries an
`"error"` key, and delete the id from the registry. -/
def FlushTransaction (c : Coordinator) (transactionID : String) : OpResult :=
  match GoMap.get c.transactionMap transactionID with
  | none =>
      { err := some ("TransactionID " ++ transactionID ++ " not found"),
        state := c, logs := [] }
  | some tx =>
      { err := none,
        state := { c with transactionMap := GoMap.erase c.transactionMap transactionID },
        logs := [{ level := if (GoMap.get tx.loggerData "error").isSome then .error else .info,
                   data := tx.loggerData }] }

/-- The parts of a Go `*http.Request` that `NewServerSegment` reads: method,
URL path, query map, header map, and the body bytes (`none` = `http.NoBody`). -/
structure HTTPRequest where
  method : String
  path : String
  queryParams : Value
  headers : Value
  body : Option String
  deriving Repr

/-- The parts of a Go `*http.Response` that `HTTPSegment.Response` reads. -/
structure HTTPResponse where
  statusCode : Int
  headers : Value
  body : Option String
  deriving Repr

/-- `HTTPSegment` (the client-side variant in the main package): start
timestamp plus mutable field data; the per-segment mutex is modelled by the
mutations being applied sequentially. -/
structure HTTPSegment where
  start : Int
  data : Fields
  deriving Repr

/-- `NewServerSegment` for `HTTPSegment`: record method, path, query params
and headers, plus the body contents when the request has one. -/
def NewServerSegment (r : HTTPRequest) (now : Int) : HTTPSegment :=
  let data : Fields :=
    [("method", .vStr r.method),
     ("path", .vStr r.path),
     ("request.query_params", r.queryParams),
     ("request.headers", r.headers)]
  let data := match r.body with
    | none => data
    | some buf => GoMap.set data "request.body" (.vStr buf)
  { start := now, data := data }

/-- `HTTPSegment.Type`: the classification tag. -/
def HTTPSegment.Type (_ : HTTPSegment) : String := "http"

/-- `HTTPSegment.Failed`: record the error text and set `status_code` to 500. -/
def HTTPSegment.Failed (s : HTTPSegment) (errMsg : String) : HTTPSegment :=
  { s with data := GoMap.set (GoMap.set s.data "error" (.vStr errMsg))
                     "status_code" (.vInt 500) }

/-- `HTTPSegment.Fields`: the current field data. -/
def HTTPSegment.Fields (s : HTTPSegment) : Fields := s.data

/-- `HTTPSegment.HasFailed`: whether `data["error"]` holds a (non-nil) value. -/
def HTTPSegment.HasFailed (s : HTTPSegment) : Bool :=
  (GoMap.get s.data "error").isSome

/-- `HTTPSegment.Response`: record status code, response headers and, when the
response has a body, its contents. -/
def HTTPSegment.Response (s : HTTPSegment) (res : HTTPResponse) : HTTPSegment :=
  let data := GoMap.set s.data "status_code" (.vInt res.statusCode)
  let data := GoMap.set data "response.headers" res.headers
  let data := match res.body with
    | none => data
    | some buf => GoMap.set data "response.body" (.vStr buf)
  { s with data := data }

/-- `HTTPSegment.Done`: set `elapsed_ms` from the start timestamp, then fill
`status_code` with 200 only when no `status_code` is present yet. -/
def HTTPSegment.Done (s : HTTPSegment) (now : Int) : HTTPSegment :=
  let data := GoMap.set s.data "elapsed_ms" (.vInt (now - s.start))
  let data := if (GoMap.get data "status_code").isSome then data
              else GoMap.set data "status_code" (.vInt 200)
  { s with data := data }

/-- The coordinator-facing interface view of an `HTTPSegment`. -/
def HTTPSegment.toSegment (s : HTTPSegment) : Segment :=
  { type := s.Type, fields := s.Fields, hasFailed := s.HasFailed }

/-- One mutation a caller can perform on an `HTTPSegment` after construction. -/
inductive HTTPOp where
  | failed (msg : String)
  | response (res : HTTPResponse)
  | done (now : Int)
  deriving Repr

/-- Whether the operation is a `Failed` call. -/
def HTTPOp.isFailedCall : HTTPOp → Bool
  | .failed _ => true
  | _ => false

/-- Apply one mutation to an `HTTPSegment`. -/
def HTTPSegment.applyOp (s : HTTPSegment) : HTTPOp → HTTPSegment
  | .failed msg => s.Failed msg
  | .response res => s.Response res
  | .done now => s.Done now

/-- Apply a sequence of mutations in order (the per-segment mutex serialises
them). -/
def HTTPSegment.applyOps (s : HTTPSegment) (ops : List HTTPOp) : HTTPSegment :=
  ops.foldl HTTPSegment.applyOp s

namespace HTTPServer

/-- `ServerSegment` (package `segments/http`): same shape as `HTTPSegment`. -/
structure ServerSegment where
  start : Int
  data : Fields
  deriving Repr

/-- `NewServerSegment` for `ServerSegment`: identical field capture to the
main package's constructor. -/
def NewServerSegment (r : HTTPRequest) (now : Int) : ServerSegment :=
  let data : Fields :=
    [("method", .vStr r.method),
     ("path", .vStr r.path),
     ("request.query_params", r.queryParams),
     ("request.headers", r.headers)]
  let data := match r.body with
    | none => data
    | some buf => GoMap.set data "request.body" (.vStr buf)
  { start := now, data := data }

/-- `ServerSegment.Type`: the classification tag. -/
def ServerSegment.Type (_ : ServerSegment) : String := "http - server"

/-- `ServerSegment.Failed`: record the error text and set `status_code` 500. -/
def ServerSegment.Failed (s : ServerSegment) (errMsg : String) : ServerSegment :=
  { s with data := GoMap.set (GoMap.set s.data "error" (.vStr errMsg))
                     "status_code" (.vInt 500) }

/-- `ServerSegment.Fields`: the current field data. -/
def ServerSegment.Fields (s : ServerSegment) : Fields := s.data

/-- `ServerSegment.HasFailed`: whether `data["error"]` holds a value. -/
def ServerSegment.HasFailed (s : ServerSegment) : Bool :=
  (GoMap.get s.data "error").isSome

/-- `ServerSegment.JSONResponse`: set status code and headers, and the
marshalled body when marshalling succeeded (`none` models a nil body or a
marshalling error, which skips the `response.body` key). -/
def ServerSegment.JSONResponse (s : ServerSegment) (statusCode : Int)
    (marshalledBody : Option String) (headers : Value) : ServerSegment :=
  let data := GoMap.set s.data "status_code" (.vInt statusCode)
  let data := GoMap.set data "response.headers" headers
  let data := match marshalledBody with
    | none => data
    | some b => GoMap.set data "response.body" (.vStr b)
  { s with data := data }

/-- `ServerSegment.Done`: set `elapsed_ms`, then fill `status_code` with 200
only when absent. -/
def ServerSegment.Done (s : ServerSegment) (now : Int) : ServerSegment :=
  let data := GoMap.set s.data "elapsed_ms" (.vInt (now - s.start))
  let data := if (GoMap.get data "status_code").isSome then data
              else GoMap.set data "status_code" (.vInt 200)
  { s with data := data }

end HTTPServer

/-- `SQLSegment`: start timestamp plus mutable field data. -/
structure SQLSegment where
  start : Int
  data : Fields
  deriving Repr

/-- `NewSQLSegment`: record statement, params and driver. -/
def NewSQLSegment (driver statement : String) (params : Value) (now : Int) : SQLSegment :=
  { start := now,
    data := [("statement", .vStr statement),
             ("params", params),
             ("driver", .vStr driver)] }

/-- `SQLSegment.Type`: the classification tag. -/
def SQLSegment.Type (_ : SQLSegment) : String := "sql"

/-- `SQLSegment.Failed`: record the error text (no status code here). -/
def SQLSegment.Failed (s : SQLSegment) (errMsg : String) : SQLSegment :=
  { s with data := GoMap.set s.data "error" (.vStr errMsg) }

/-- `SQLSegment.Fields`: the current field data. -/
def SQLSegment.Fields (s : SQLSegment) : Fields := s.data

/-- `SQLSegment.HasFailed`: whether `data["error"]` holds a value. -/
def SQLSegment.HasFailed (s : SQLSegment) : Bool :=
  (GoMap.get s.data "error").isSome

/-- `SQLSegment.ExecResponse`: record rows affected when the driver reports
them without error (`none` models `RowsAffected()` failing). -/
def SQLSegment.ExecResponse (s : SQLSegment) (rowsAffected : Option Int) : SQLSegment :=
  match rowsAffected with
  | none => s
  | some n => { s with data := GoMap.set s.data "rows_affected" (.vInt n) }

/-- `SQLSegment.QueryResponse`: record the result-set columns when available. -/
def SQLSegment.QueryResponse (s : SQLSegment) (columns : Option (List String)) : SQLSegment :=
  match columns with
  | none => s
  | some cols => { s with data := GoMap.set s.data "columns" (.vStrList cols) }

/-- `SQLSegment.Done`: set `elapsed_ms` from the start timestamp; SQL segments
define no default completion status. -/
def SQLSegment.Done (s : SQLSegment) (now : Int) : SQLSegment :=
  { s with data := GoMap.set s.data "elapsed_ms" (.vInt (now - s.start)) }

/-- Serialised run of `AppendSegment` calls for one transaction id: the
per-transaction mutex makes any concurrent execution of the appends observe
some sequential order, so a concurrent run is one such `order`. -/
def appendAll (c : Coordinator) (transactionID : String) (order : List Segment) : Coordinator :=
  order.foldl (fun acc s => (AppendSegment acc transactionID s).state) c

theorem GoMap.get_set (m : List (String × α)) (k k' : String) (v : α) :
    GoMap.get (GoMap.set m k v) k' = if k = k' then some v else GoMap.get m k' := by
  induction m with
  | nil => simp [GoMap.set, GoMap.get]
  | cons kv rest ih =>
    obtain ⟨k₀, v₀⟩ := kv
    by_cases hk : k₀ = k
    · subst hk
      rcases eq_or_ne k₀ k' with rfl | hkk
      · simp [GoMap.set, GoMap.get]
      · simp [GoMap.set, GoMap.get, hkk]
    · rcases eq_or_ne k₀ k' with rfl | hkk
      · simp [GoMap.set, GoMap.get, hk, (Ne.symm hk : ¬k = k₀)]
      · simp [GoMap.set, GoMap.get, hk, hkk, ih]

theorem GoMap.get_erase (m : List (String × α)) (k k' : String) :
    GoMap.get (GoMap.erase m k) k' = if k = k' then none else GoMap.get m k' := by
  induction m with
  | nil => simp [GoMap.erase, GoMap.get]
  | cons kv rest ih =>
    obtain ⟨k₀, v₀⟩ := kv
    by_cases hk : k₀ = k
    · subst hk
      rcases eq_or_ne k₀ k' with rfl | hkk
      · simpa [GoMap.erase, GoMap.get, List.filter] using ih
      · simpa [GoMap.erase, GoMap.get, List.filter, hkk] using ih
    · have hb : (k₀ == k) = false := beq_eq_false_iff_ne.mpr hk
      rcases eq_or_ne k₀ k' with rfl | hkk
      · simp [GoMap.erase, GoMap.get, List.filter, hb, (Ne.symm hk : ¬k = k₀)]
      · simpa [GoMap.erase, GoMap.get, List.filter, hb, hkk] using ih

/-- C10: after `Init`, whatever options ran (including `DefaultFields` with an
`"audit"` binding), the coordinator's default field set maps `"audit"` to
`true`: the built-in marker is written after all options are applied. -/
theorem init_forces_audit_default_true (opts : List (Coordinator → Coordinator)) :
    GoMap.get (Init opts).defaultFields "audit" = some (.vBool true) := by
  simp [Init, GoMap.get_set]

/-- C1: the claim that the stand-alone segment entry carries `audit = false`
fails on the code.  `AppendSegment` builds the entry as
`WithFields({segment fields, audit:false}).WithFields(defaultFields)`, and
`Init` always puts `audit = true` into the default fields, so the later merge
overwrites the `false` marker: at a concrete run (plain `Init`, one open
transaction, one unfailed segment) the emitted entry has `segment.type` and
`segment.data` as claimed but `audit = true`, contradicting both the claim and
the code's own comments. -/
theorem appendSegment_entry_audit_overwritten :
    (AppendSegment ((NewTransaction (Init []) "tx1").state) "tx1"
        { type := "http", fields := [("method", .vStr "GET")], hasFailed := false }).logs
      = [{ level := .info,
           data := [("segment.type", .vStr "http"),
                    ("segment.data", .vMap [("method", .vStr "GET")]),
                    ("audit", .vBool true)] }] ∧
    GoMap.get
      ((AppendSegment ((NewTransaction (Init []) "tx1").state) "tx1"
          { type := "http", fields := [("method", .vStr "GET")], hasFailed := false }).logs.headD
        { level := .info, data := [] }).data "audit" ≠ some (.vBool false) := by
  refine ⟨rfl, fun h => ?_⟩
  have hb : Value.vBool true = Value.vBool false := Option.some.inj h
  have hbb : true = false := by injection hb
  exact Bool.noConfusion hbb

/-- C2: appending to an id absent from the registry still emits exactly the
stand-alone segment entry (the emission precedes the existence check), returns
the `Transaction %s not found` error, and leaves the whole coordinator state —
in particular every open transaction's segment sequence — unchanged. -/
theorem appendSegment_missing_id_emits_then_errors
    (c : Coordinator) (transactionID : String) (segment : Segment)
    (h : GoMap.get c.transactionMap transactionID = none) :
    (AppendSegment c transactionID segment).err
      = some ("Transaction " ++ transactionID ++ " not found") ∧
    (AppendSegment c transactionID segment).logs = [mkSegmentEntry c segment] ∧
    (AppendSegment c transactionID segment).state = c := by
  simp [AppendSegment, h]

theorem appendSegment_missing_id_emits_then_errors_witness :
    GoMap.get (Init []).transactionMap "ghost" = none ∧
    ((AppendSegment (Init []) "ghost" { type := "sql", fields := [], hasFailed := false }).err
        = some ("Transaction " ++ "ghost" ++ " not found") ∧
      (AppendSegment (Init []) "ghost" { type := "sql", fields := [], hasFailed := false }).logs
        = [mkSegmentEntry (Init []) { type := "sql", fields := [], hasFailed := false }] ∧
      (AppendSegment (Init []) "ghost" { type := "sql", fields := [], hasFailed := false }).state
        = Init []) :=
  ⟨rfl, appendSegment_missing_id_emits_then_errors (Init []) "ghost"
    { type := "sql", fields := [], hasFailed := false } rfl⟩

/-- C5: for an id absent from the registry (never opened, or already flushed
and hence removed), both `AppendSegment` and `FlushTransaction` return their
not-found error as an explicit value; the operations are total functions here,
matching the code's panic-free paths. -/
theorem missing_id_yields_not_found_errors
    (c : Coordinator) (transactionID : String) (segment : Segment)
    (h : GoMap.get c.transactionMap transactionID = none) :
    (AppendSegment c transactionID segment).err
      = some ("Transaction " ++ transactionID ++ " not found") ∧
    (FlushTransaction c transactionID).err
      = some ("TransactionID " ++ transactionID ++ " not found") := by
  simp [AppendSegment, FlushTransaction, h]

theorem missing_id_yields_not_found_errors_witness :
    GoMap.get (Init []).transactionMap "nope" = none ∧
    ((AppendSegment (Init []) "nope" { type := "http", fields := [], hasFailed := true }).err
        = some ("Transaction " ++ "nope" ++ " not found") ∧
      (FlushTransaction (Init []) "nope").err
        = some ("TransactionID " ++ "nope" ++ " not found")) :=
  ⟨rfl, missing_id_yields_not_found_errors (Init []) "nope"
    { type := "http", fields := [], hasFailed := true } rfl⟩

/-- C4: `NewTransaction` on an id already present in the registry returns the
duplicate error; in particular, on an id not yet present, the first call
succeeds and an immediately repeated call fails. -/
theorem newTransaction_duplicate_id_fails (c : Coordinator) (transactionID : String) :
    ((GoMap.get c.transactionMap transactionID).isSome →
      (NewTransaction c transactionID).err
        = some ("TransactionID " ++ transactionID ++ " already exists inside transactions map")) ∧
    (GoMap.get c.transactionMap transactionID = none →
      (NewTransaction c transactionID).err = none ∧
      (NewTransaction (NewTransaction c transactionID).state transactionID).err
        = some ("TransactionID " ++ transactionID ++ " already exists inside transactions map")) := by
  constructor
  · intro h
    rcases ho : GoMap.get c.transactionMap transactionID with _ | tx
    · rw [ho] at h; simp at h
    · simp [NewTransaction, ho]
  · intro h
    refine ⟨by simp [NewTransaction, h], ?_⟩
    simp [NewTransaction, h, GoMap.get_set]

theorem newTransaction_duplicate_id_fails_witness :
    GoMap.get (Init []).transactionMap "tx1" = none ∧
    ((NewTransaction (Init []) "tx1").err = none ∧
      (NewTransaction (NewTransaction (Init []) "tx1").state "tx1").err
        = some ("TransactionID " ++ "tx1" ++ " already exists inside transactions map")) :=
  ⟨rfl, (newTransaction_duplicate_id_fails (Init []) "tx1").2 rfl⟩

/-- C3: for an open transaction, the consolidated entry flushed for it is
emitted at error severity exactly when the transaction's own pre-bound logger
data carries an `"error"` key, and at info severity otherwise; replacing the
transaction's appended segments by any other list (failed segments included)
leaves the emitted entry unchanged. -/
theorem flushTransaction_severity_from_context_only
    (c : Coordinator) (transactionID : String) (tx : Transaction)
    (h : GoMap.get c.transactionMap transactionID = some tx) :
    (FlushTransaction c transactionID).logs
      = [{ level := if (GoMap.get tx.loggerData "error").isSome then .error else .info,
           data := tx.loggerData }] ∧
    ∀ segs : List Segment,
      (FlushTransaction
          { c with transactionMap :=
              GoMap.set c.transactionMap transactionID { tx with segments := segs } }
          transactionID).logs
        = (FlushTransaction c transactionID).logs := by
  refine ⟨by simp [FlushTransaction, h], ?_⟩
  intro segs
  simp [FlushTransaction, h, GoMap.get_set]

theorem flushTransaction_severity_from_context_only_witness :
    GoMap.get ((NewTransaction (Init []) "tx1").state).transactionMap "tx1"
      = some { id := "tx1", loggerData := [("audit", .vBool true)], segments := [] } ∧
    (FlushTransaction ((NewTransaction (Init []) "tx1").state) "tx1").logs
      = [{ level := if (GoMap.get ([("audit", Value.vBool true)] : Fields) "error").isSome
             then .error else .info,
           data := [("audit", .vBool true)] }] :=
  ⟨rfl, (flushTransaction_severity_from_context_only ((NewTransaction (Init []) "tx1").state)
    "tx1" { id := "tx1", loggerData := [("audit", .vBool true)], segments := [] } rfl).1⟩

/-- C6: a successful flush removes the id from the registry unconditionally: a
second flush yields the not-found error, and reopening the id succeeds and
registers a transaction with an empty segment sequence. -/
theorem flushTransaction_removes_id_and_allows_reuse
    (c : Coordinator) (transactionID : String) (tx : Transaction)
    (h : GoMap.get c.transactionMap transactionID = some tx) :
    (FlushTransaction c transactionID).err = none ∧
    GoMap.get (FlushTransaction c transactionID).state.transactionMap transactionID = none ∧
    (FlushTransaction (FlushTransaction c transactionID).state transactionID).err
      = some ("TransactionID " ++ transactionID ++ " not found") ∧
    (NewTransaction (FlushTransaction c transactionID).state transactionID).err = none ∧
    ∃ tx' : Transaction,
      GoMap.get (NewTransaction (FlushTransaction c transactionID).state
          transactionID).state.transactionMap transactionID = some tx' ∧
      tx'.segments = [] := by
  have hgone : GoMap.get (FlushTransaction c transactionID).state.transactionMap transactionID
      = none := by
    simp [FlushTransaction, h, GoMap.get_erase]
  have flush2 : ∀ c₂ : Coordinator, GoMap.get c₂.transactionMap transactionID = none →
      (FlushTransaction c₂ transactionID).err
        = some ("TransactionID " ++ transactionID ++ " not found") := by
    intro c₂ h₂
    simp [FlushTransaction, h₂]
  have new2err : ∀ c₂ : Coordinator, GoMap.get c₂.transactionMap transactionID = none →
      (NewTransaction c₂ transactionID).err = none := by
    intro c₂ h₂
    simp [NewTransaction, h₂]
  have new2get : ∀ c₂ : Coordinator, GoMap.get c₂.transactionMap transactionID = none →
      ∃ tx' : Transaction,
        GoMap.get (NewTransaction c₂ transactionID).state.transactionMap transactionID
          = some tx' ∧ tx'.segments = [] := by
    intro c₂ h₂
    refine ⟨{ id := transactionID, loggerData := GoMap.merge [] c₂.defaultFields,
              segments := [] }, ?_, rfl⟩
    simp [NewTransaction, h₂, GoMap.get_set]
  exact ⟨by simp [FlushTransaction, h], hgone, flush2 _ hgone, new2err _ hgone, new2get _ hgone⟩

theorem flushTransaction_removes_id_and_allows_reuse_witness :
    GoMap.get ((NewTransaction (Init []) "tx1").state).transactionMap "tx1"
      = some { id := "tx1", loggerData := [("audit", .vBool true)], segments := [] } ∧
    ((FlushTransaction ((NewTransaction (Init []) "tx1").state) "tx1").err = none ∧
      GoMap.get (FlushTransaction ((NewTransaction (Init []) "tx1").state)
        "tx1").state.transactionMap "tx1" = none ∧
      (FlushTransaction (FlushTransaction ((NewTransaction (Init []) "tx1").state) "tx1").state
          "tx1").err = some ("TransactionID " ++ "tx1" ++ " not found") ∧
      (NewTransaction (FlushTransaction ((NewTransaction (Init []) "tx1").state) "tx1").state
          "tx1").err = none ∧
      ∃ tx' : Transaction,
        GoMap.get (NewTransaction (FlushTransaction ((NewTransaction (Init []) "tx1").state)
            "tx1").state "tx1").state.transactionMap "tx1" = some tx' ∧
        tx'.segments = []) :=
  ⟨rfl, flushTransaction_removes_id_and_allows_reuse ((NewTransaction (Init []) "tx1").state)
    "tx1" { id := "tx1", loggerData := [("audit", .vBool true)], segments := [] } rfl⟩

theorem NewServerSegment_no_error_key (r : HTTPRequest) (t : Int) :
    GoMap.get (NewServerSegment r t).data "error" = none := by
  obtain ⟨m, p, q, hd, b⟩ := r
  cases b <;> rfl

theorem HTTPSegment.applyOps_no_error_key
    (ops : List HTTPOp) (hops : ∀ op ∈ ops, op.isFailedCall = false) :
    ∀ s : HTTPSegment, GoMap.get s.data "error" = none →
      GoMap.get (s.applyOps ops).data "error" = none := by
  induction ops with
  | nil => exact fun s hs => hs
  | cons op rest ih =>
    intro s hs
    have hop : op.isFailedCall = false := hops op (by simp)
    have hrest : ∀ op' ∈ rest, op'.isFailedCall = false :=
      fun op' h' => hops op' (by simp [h'])
    have hstep : GoMap.get (s.applyOp op).data "error" = none := by
      cases op with
      | failed msg => simp [HTTPOp.isFailedCall] at hop
      | response res =>
        cases hb : res.body <;>
          simp [HTTPSegment.applyOp, HTTPSegment.Response, hb, GoMap.get_set, hs]
      | done n =>
        by_cases hsc : (GoMap.get s.data "status_code").isSome <;>
          simp [HTTPSegment.applyOp, HTTPSegment.Done, hsc, GoMap.get_set, hs]
    exact ih hrest _ hstep

/-- C7: marking an `HTTPSegment` failed before `Done` makes `HasFailed` true
and its stand-alone entry error-severity; a segment built by the constructor
and mutated only by `Failed`-free operations has `HasFailed` false after
`Done` and an info-severity entry; and `HasFailed` is exactly the presence of
the `"error"` marker in the segment's field set. -/
theorem httpSegment_failed_marker_and_severity
    (s : HTTPSegment) (msg : String) (now : Int) (c : Coordinator)
    (r : HTTPRequest) (t : Int) (ops : List HTTPOp)
    (hops : ∀ op ∈ ops, op.isFailedCall = false) :
    (((s.Failed msg).Done now).HasFailed = true ∧
      (mkSegmentEntry c ((s.Failed msg).Done now).toSegment).level = .error) ∧
    ((((NewServerSegment r t).applyOps ops).Done now).HasFailed = false ∧
      (mkSegmentEntry c (((NewServerSegment r t).applyOps ops).Done now).toSegment).level
        = .info) ∧
    s.HasFailed = (GoMap.get s.Fields "error").isSome := by
  have hfail : ((s.Failed msg).Done now).HasFailed = true := by
    simp [HTTPSegment.Failed, HTTPSegment.Done, HTTPSegment.HasFailed, GoMap.get_set]
  have hok : GoMap.get ((NewServerSegment r t).applyOps ops).data "error" = none :=
    HTTPSegment.applyOps_no_error_key ops hops _ (NewServerSegment_no_error_key r t)
  have hok2 : (((NewServerSegment r t).applyOps ops).Done now).HasFailed = false := by
    by_cases hsc : (GoMap.get ((NewServerSegment r t).applyOps ops).data "status_code").isSome <;>
      simp [HTTPSegment.Done, HTTPSegment.HasFailed, hsc, GoMap.get_set, hok]
  refine ⟨⟨hfail, ?_⟩, ⟨hok2, ?_⟩, rfl⟩
  · simp [mkSegmentEntry, HTTPSegment.toSegment, hfail]
  · simp [mkSegmentEntry, HTTPSegment.toSegment, hok2]

theorem httpSegment_failed_marker_and_severity_witness :
    (∀ op ∈ ([HTTPOp.done 120] : List HTTPOp), op.isFailedCall = false) ∧
    ((((({ start := 0, data := [] } : HTTPSegment).Failed "boom").Done 5).HasFailed = true ∧
      (mkSegmentEntry (Init [])
        ((({ start := 0, data := [] } : HTTPSegment).Failed "boom").Done 5).toSegment).level
        = .error) ∧
    ((((NewServerSegment
          { method := "GET", path := "/x", queryParams := .vMap [], headers := .vMap [],
            body := none } 100).applyOps [HTTPOp.done 120]).Done 150).HasFailed = false ∧
      (mkSegmentEntry (Init [])
        (((NewServerSegment
            { method := "GET", path := "/x", queryParams := .vMap [], headers := .vMap [],
              body := none } 100).applyOps [HTTPOp.done 120]).Done 150).toSegment).level
        = .info) ∧
    ({ start := 0, data := [] } : HTTPSegment).HasFailed
      = (GoMap.get ({ start := 0, data := [] } : HTTPSegment).Fields "error").isSome) :=
  ⟨by simp [HTTPOp.isFailedCall],
    httpSegment_failed_marker_and_severity { start := 0, data := [] } "boom" 150 (Init [])
      { method := "GET", path := "/x", queryParams := .vMap [], headers := .vMap [],
        body := none } 100 [HTTPOp.done 120] (by simp [HTTPOp.isFailedCall])⟩

/-- C8: `Done` on each segment kind sets `elapsed_ms` to the time elapsed
since the segment's start (non-negative whenever the finalisation instant is
not before the start), and the two HTTP segment kinds fill their default
`status_code = 200` only when no status code was set by a prior `Failed`,
`Response` or `JSONResponse`; the SQL segment has no default status. -/
theorem done_sets_elapsed_and_conditional_default_status
    (s1 : HTTPSegment) (s2 : HTTPServer.ServerSegment) (s3 : SQLSegment)
    (n1 n2 n3 : Int) (h1 : s1.start ≤ n1) (h2 : s2.start ≤ n2) (h3 : s3.start ≤ n3) :
    (GoMap.get (s1.Done n1).data "elapsed_ms" = some (.vInt (n1 - s1.start)) ∧
      0 ≤ n1 - s1.start ∧
      GoMap.get (s1.Done n1).data "status_code"
        = if (GoMap.get s1.data "status_code").isSome then GoMap.get s1.data "status_code"
          else some (.vInt 200)) ∧
    (GoMap.get (s2.Done n2).data "elapsed_ms" = some (.vInt (n2 - s2.start)) ∧
      0 ≤ n2 - s2.start ∧
      GoMap.get (s2.Done n2).data "status_code"
        = if (GoMap.get s2.data "status_code").isSome then GoMap.get s2.data "status_code"
          else some (.vInt 200)) ∧
    (GoMap.get (s3.Done n3).data "elapsed_ms" = some (.vInt (n3 - s3.start)) ∧
      0 ≤ n3 - s3.start) := by
  refine ⟨⟨?_, by omega, ?_⟩, ⟨?_, by omega, ?_⟩, ?_, by omega⟩
  · by_cases hsc : (GoMap.get s1.data "status_code").isSome <;>
      simp [HTTPSegment.Done, GoMap.get_set, hsc]
  · by_cases hsc : (GoMap.get s1.data "status_code").isSome <;>
      simp [HTTPSegment.Done, GoMap.get_set, hsc]
  · by_cases hsc : (GoMap.get s2.data "status_code").isSome <;>
      simp [HTTPServer.ServerSegment.Done, GoMap.get_set, hsc]
  · by_cases hsc : (GoMap.get s2.data "status_code").isSome <;>
      simp [HTTPServer.ServerSegment.Done, GoMap.get_set, hsc]
  · simp [SQLSegment.Done, GoMap.get_set]

theorem done_sets_elapsed_and_conditional_default_status_witness :
    (({ start := 3, data := [] } : HTTPSegment).start ≤ 10 ∧
      ({ start := 0, data := [("status_code", .vInt 204)] } :
        HTTPServer.ServerSegment).start ≤ 7 ∧
      (NewSQLSegment "pg" "select 1" (.vMap []) 2).start ≤ 9) ∧
    ((GoMap.get (({ start := 3, data := [] } : HTTPSegment).Done 10).data "elapsed_ms"
        = some (.vInt (10 - ({ start := 3, data := [] } : HTTPSegment).start)) ∧
      0 ≤ 10 - ({ start := 3, data := [] } : HTTPSegment).start ∧
      GoMap.get (({ start := 3, data := [] } : HTTPSegment).Done 10).data "status_code"
        = if (GoMap.get ({ start := 3, data := [] } : HTTPSegment).data "status_code").isSome
            then GoMap.get ({ start := 3, data := [] } : HTTPSegment).data "status_code"
          else some (.vInt 200)) ∧
    (GoMap.get (({ start := 0, data := [("status_code", .vInt 204)] } :
          HTTPServer.ServerSegment).Done 7).data "elapsed_ms"
        = some (.vInt (7 - ({ start := 0, data := [("status_code", .vInt 204)] } :
            HTTPServer.ServerSegment).start)) ∧
      0 ≤ 7 - ({ start := 0, data := [("status_code", .vInt 204)] } :
          HTTPServer.ServerSegment).start ∧
      GoMap.get (({ start := 0, data := [("status_code", .vInt 204)] } :
          HTTPServer.ServerSegment).Done 7).data "status_code"
        = if (GoMap.get ({ start := 0, data := [("status_code", .vInt 204)] } :
              HTTPServer.ServerSegment).data "status_code").isSome
            then GoMap.get ({ start := 0, data := [("status_code", .vInt 204)] } :
              HTTPServer.ServerSegment).data "status_code"
          else some (.vInt 200)) ∧
    (GoMap.get ((NewSQLSegment "pg" "select 1" (.vMap []) 2).Done 9).data "elapsed_ms"
        = some (.vInt (9 - (NewSQLSegment "pg" "select 1" (.vMap []) 2).start)) ∧
      0 ≤ 9 - (NewSQLSegment "pg" "select 1" (.vMap []) 2).start)) :=
  ⟨⟨by decide, by decide, by decide⟩,
    done_sets_elapsed_and_conditional_default_status
      { start := 3, data := [] } { start := 0, data := [("status_code", .vInt 204)] }
      (NewSQLSegment "pg" "select 1" (.vMap []) 2) 10 7 9
      (by decide) (by decide) (by decide)⟩

theorem appendAll_get (transactionID : String) (order : List Segment) :
    ∀ (c : Coordinator) (tx : Transaction),
      GoMap.get c.transactionMap transactionID = some tx →
      GoMap.get (appendAll c transactionID order).transactionMap transactionID
        = some { tx with segments := tx.segments ++ order } := by
  induction order with
  | nil =>
    intro c tx h
    simpa [appendAll] using h
  | cons s rest ih =>
    intro c tx h
    have hstate : (AppendSegment c transactionID s).state
        = ⟨c.defaultFields,
           GoMap.set c.transactionMap transactionID
             { tx with segments := tx.segments ++ [s] }⟩ := by
      simp [AppendSegment, h]
    have hget : GoMap.get (AppendSegment c transactionID s).state.transactionMap transactionID
        = some { tx with segments := tx.segments ++ [s] } := by
      rw [hstate]
      simp [GoMap.get_set]
    have hrest := ih _ _ hget
    have hfold : appendAll c transactionID (s :: rest)
        = appendAll (AppendSegment c transactionID s).state transactionID rest := rfl
    rw [hfold, hrest]
    simp

/-- C9: with the per-transaction mutex serialising concurrent `AppendSegment`
callers, a concurrent run of N appends is some sequential order of them; for
every such order (any permutation of the N segments) the transaction's view
at flush time holds exactly those N segments — none lost, none duplicated —
and the flush itself succeeds. -/
theorem concurrent_appends_preserve_all_segments
    (c : Coordinator) (transactionID : String) (tx : Transaction)
    (order segs : List Segment)
    (hopen : GoMap.get c.transactionMap transactionID = some tx)
    (hstart : tx.segments = [])
    (hinter : List.Perm order segs) :
    ∃ tx' : Transaction,
      GoMap.get (appendAll c transactionID order).transactionMap transactionID = some tx' ∧
      List.Perm tx'.segments segs ∧
      tx'.segments.length = segs.length ∧
      (FlushTransaction (appendAll c transactionID order) transactionID).err = none := by
  have hget := appendAll_get transactionID order c tx hopen
  refine ⟨{ tx with segments := tx.segments ++ order }, hget, ?_, ?_, ?_⟩
  · simpa [hstart] using hinter
  · simpa [hstart] using hinter.length_eq
  · simp [FlushTransaction, hget]

theorem concurrent_appends_preserve_all_segments_witness :
    (GoMap.get ((NewTransaction (Init []) "tx1").state).transactionMap "tx1"
        = some { id := "tx1", loggerData := [("audit", .vBool true)], segments := [] } ∧
      ({ id := "tx1", loggerData := [("audit", .vBool true)],
         segments := [] } : Transaction).segments = [] ∧
      List.Perm
        [({ type := "sql", fields := [], hasFailed := true } : Segment),
         ({ type := "http", fields := [], hasFailed := false } : Segment)]
        [({ type := "http", fields := [], hasFailed := false } : Segment),
         ({ type := "sql", fields := [], hasFailed := true } : Segment)]) ∧
    ∃ tx' : Transaction,
      GoMap.get (appendAll ((NewTransaction (Init []) "tx1").state) "tx1"
          [({ type := "sql", fields := [], hasFailed := true } : Segment),
           ({ type := "http", fields := [], hasFailed := false } : Segment)]).transactionMap
          "tx1" = some tx' ∧
      List.Perm tx'.segments
        [({ type := "http", fields := [], hasFailed := false } : Segment),
         ({ type := "sql", fields := [], hasFailed := true } : Segment)] ∧
      tx'.segments.length
        = ([({ type := "http", fields := [], hasFailed := false } : Segment),
            ({ type := "sql", fields := [], hasFailed := true } : Segment)]).length ∧
      (FlushTransaction (appendAll ((NewTransaction (Init []) "tx1").state) "tx1"
          [({ type := "sql", fields := [], hasFailed := true } : Segment),
           ({ type := "http", fields := [], hasFailed := false } : Segment)]) "tx1").err
        = none :=
  ⟨⟨rfl, rfl,
      List.Perm.swap ({ type := "http", fields := [], hasFailed := false } : Segment)
        ({ type := "sql", fields := [], hasFailed := true } : Segment) []⟩,
    concurrent_appends_preserve_all_segments ((NewTransaction (Init []) "tx1").state) "tx1"
      { id := "tx1", loggerData := [("audit", .vBool true)], segments := [] }
      [({ type := "sql", fields := [], hasFailed := true } : Segment),
       ({ type := "http", fields := [], hasFailed := false } : Segment)]
      [({ type := "http", fields := [], hasFailed := false } : Segment),
       ({ type := "sql", fields := [], hasFailed := true } : Segment)]
      rfl rfl
      (List.Perm.swap ({ type := "http", fields := [], hasFailed := false } : Segment)
        ({ type := "sql", fields := [], hasFailed := true } : Segment) [])⟩
